import Mathlib

/-!
Shallow embedding of the error-handling core of `breadx` (file `src/error.rs`):
the `ErrorCode` table, the `BreadError` failure taxonomy, the wire decoder
`BreadError::from_x_error`, the `Display` renderings, and the `Clone` /
`From` conversions, together with theorems settling the specification claims.

Machine integers are modelled as `Nat` (bytes are values `< 256` where it
matters, with explicit `% 256` for narrowing casts).  Rust's decimal
`Display` of unsigned integers is modelled by an explicit decimal printer.
Strings are Lean `String`s.  Rust's `Arc` is modelled as a value tagged with
a heap identity, so that pointer sharing under `Clone` is observable.
Slice indexing that can panic is modelled in the `Option` monad, `none`
standing for the abnormal termination of an out-of-bounds access.
-/

namespace Breadx

/-- The byte order a host CPU uses; `u16::from_ne_bytes` is parameterised by
it, since "native-endian" denotes whichever order the host has. -/
inductive ByteOrder where
  | le : ByteOrder
  | be : ByteOrder
deriving DecidableEq

/-- `u16::from_ne_bytes [b0, b1]`: reassemble two bytes into a 16-bit value
in the host's native byte order. -/
def u16FromNeBytes : ByteOrder → Nat → Nat → Nat
  | ByteOrder.le, b0, b1 => b0 + 256 * b1
  | ByteOrder.be, b0, b1 => 256 * b0 + b1

/-- Decimal digit character for `n % 10`, as produced by Rust's integer
formatting (`'0'` through `'9'`). -/
def digitChar (n : Nat) : Char := Char.ofNat (48 + n % 10)

/-- The decimal digit characters of `n`, most significant first, prepended
to `acc`; `fuel` bounds the digit-extraction loop (any `fuel > n` is
enough, since `n / 10 < n` for `n ≥ 10`). -/
def natDigitsAux (fuel n : Nat) (acc : List Char) : List Char :=
  match fuel with
  | 0 => acc
  | fuel + 1 =>
    if n < 10 then digitChar n :: acc
    else natDigitsAux fuel (n / 10) (digitChar n :: acc)

/-- Rust's `Display` for unsigned integers: the exact decimal string. -/
def natToDecimal (n : Nat) : String := String.mk (natDigitsAux (n + 1) n [])

/-- `pub struct ErrorCode(pub u8)`: a protocol error code, one byte. -/
structure ErrorCode where
  val : Nat
deriving DecidableEq

/-- `impl fmt::Display for ErrorCode`: the name table for codes 1–17 with a
decimal fallback for every other value, exactly as the `match` in the
source (including the source's spelling of arm 13). -/
def ErrorCode.display (c : ErrorCode) : String :=
  match c.val with
  | 1 => "Request"
  | 2 => "Value"
  | 3 => "Window"
  | 4 => "Pixmap"
  | 5 => "Atom"
  | 6 => "Cursor"
  | 7 => "Font"
  | 8 => "Match"
  | 9 => "Drawable"
  | 10 => "Access"
  | 11 => "Alloc"
  | 12 => "Colormap"
  | 13 => "GConext"
  | 14 => "IDChoice"
  | 15 => "Name"
  | 16 => "Length"
  | 17 => "Implementation"
  | id => natToDecimal id

/-- `std::io::Error`, as far as this core observes it: an opaque platform
error whose `Display` rendering is some message.  It is not duplicable
(`io::Error` is not `Clone`), which is why `BreadError` wraps it in an
`Arc`. -/
structure IoError where
  msg : String
deriving DecidableEq

/-- `Arc<α>`: a reference-counted pointer, modelled as the pointed-to value
tagged with the heap identity of the allocation, so that sharing versus
copying is observable. -/
structure Arc (α : Type) where
  id : Nat
  value : α
deriving DecidableEq

/-- `Arc::clone`: copies the pointer (same allocation identity), never the
pointed-to value. -/
def Arc.clone {α : Type} (a : Arc α) : Arc α := ⟨a.id, a.value⟩

/-- `pub enum BreadError`: the failure taxonomy, one constructor per source
variant, payloads as in the source (`&'static BreadError` modelled by a
nested value, `Cow<'static, str>` by a `String`). -/
inductive BreadError where
  | StaticMsg (m : String)
  | Msg (m : String)
  | StaticErr (e : BreadError)
  | UnableToParseConnection
  | UnableToOpenConnection
  | Io (i : Arc IoError)
  | FailedToConnect (reason : String)
  | FailedToAuthorize (reason : String)
  | BadObjectRead (name : Option String)
  | ExtensionNotPresent (ext : String)
  | NoMatchingRequest (seq : Nat)
  | XProtocol (error_code : ErrorCode) (minor_code : Nat) (major_code : Nat) (sequence : Nat)
  | ClosedConnection
  | LoadLibraryFailed (l : String)
deriving DecidableEq

/-- `BreadError::from_x_error`: decode a protocol error reply.  The source
reads `bytes[2..=3]` and `bytes[8..=9]` through `u16::from_ne_bytes`,
then `b[1]` and `b[10]`, and narrows the 16-bit minor code with `as u8`
(`% 256`).  Each slice access panics when out of bounds; `none` models
that abnormal termination, in the order the source performs the
accesses. -/
def from_x_error (native : ByteOrder) (b : List Nat) : Option BreadError := do
  let s0 ← b[2]?
  let s1 ← b[3]?
  let sequence := u16FromNeBytes native s0 s1
  let m0 ← b[8]?
  let m1 ← b[9]?
  let minor_code := u16FromNeBytes native m0 m1
  let e ← b[1]?
  let major ← b[10]?
  pure (BreadError.XProtocol (ErrorCode.mk e) (minor_code % 256) major sequence)

/-- `impl From<IoError> for BreadError`: `Self::Io(Arc::new(io))`.  The
`Arc::new` allocation's heap identity is passed in (it is fresh at the
call site). -/
def fromIoError (fresh : Nat) (io : IoError) : BreadError :=
  BreadError.Io (Arc.mk fresh io)

/-- `core::convert::Infallible`: the uninhabited type. -/
inductive Infallible where

/-- `impl From<Infallible> for BreadError`: the body is `panic!`, which
never returns a value; since the argument type is uninhabited the
function has no possible input either. -/
def fromInfallible : Infallible → BreadError := fun i => nomatch i

/-- `impl fmt::Display for BreadError`: one line of text per variant,
exactly the format strings of the source (`{}` holes spliced in place).
The `Io` arm delegates to the wrapped `IoError`'s own rendering; the
`StaticErr` arm recurses into the referenced error. -/
def BreadError.display : BreadError → String
  | BreadError.StaticMsg m => m
  | BreadError.Msg m => m
  | BreadError.StaticErr e => e.display
  | BreadError.UnableToParseConnection => "Unable to parse X11 connection name"
  | BreadError.UnableToOpenConnection => "Unable to open connection to X11 server"
  | BreadError.FailedToConnect reason =>
      "Unable to connect to the X11 server: " ++ reason
  | BreadError.FailedToAuthorize reason =>
      "Authorization was rejected by the X11 server: " ++ reason
  | BreadError.BadObjectRead name =>
      "Unable to read object of type from bytes: " ++ name.getD "Unknown"
  | BreadError.NoMatchingRequest seq =>
      "Received reply with non-matching sequence " ++ natToDecimal seq
  | BreadError.ExtensionNotPresent ext =>
      "Extension was not found on X server: " ++ ext
  | BreadError.XProtocol error_code minor_code major_code sequence =>
      "An X11 error of type " ++ error_code.display ++
        " occurred on a request of opcode " ++ natToDecimal major_code ++ ":" ++
        natToDecimal minor_code ++ " and sequence " ++ natToDecimal sequence
  | BreadError.ClosedConnection =>
      "The X connection closed without our end of the connection closing. Did you forget to listen for WM_DELTE_WINDOW?"
  | BreadError.LoadLibraryFailed l => "Failed to load library: " ++ l
  | BreadError.Io i => i.value.msg

/-- `#[derive(Clone)]` for `BreadError`: each variant clones its fields;
strings are copied by value, the `Arc` of the `Io` variant is cloned as a
pointer (`Arc.clone`), not the wrapped error. -/
def BreadError.clone : BreadError → BreadError
  | BreadError.StaticMsg m => BreadError.StaticMsg m
  | BreadError.Msg m => BreadError.Msg m
  | BreadError.StaticErr e => BreadError.StaticErr e
  | BreadError.UnableToParseConnection => BreadError.UnableToParseConnection
  | BreadError.UnableToOpenConnection => BreadError.UnableToOpenConnection
  | BreadError.Io i => BreadError.Io i.clone
  | BreadError.FailedToConnect reason => BreadError.FailedToConnect reason
  | BreadError.FailedToAuthorize reason => BreadError.FailedToAuthorize reason
  | BreadError.BadObjectRead name => BreadError.BadObjectRead name
  | BreadError.ExtensionNotPresent ext => BreadError.ExtensionNotPresent ext
  | BreadError.NoMatchingRequest seq => BreadError.NoMatchingRequest seq
  | BreadError.XProtocol ec mi ma sq => BreadError.XProtocol ec mi ma sq
  | BreadError.ClosedConnection => BreadError.ClosedConnection
  | BreadError.LoadLibraryFailed l => BreadError.LoadLibraryFailed l

/-- The heap identity of the `Arc` held by an `Io` failure, when there is
one: two failure values with the same `arcIdOf` observe the very same
underlying platform error object. -/
def arcIdOf : BreadError → Option Nat
  | BreadError.Io i => some i.id
  | _ => none

/-- Whether a string contains the newline character anywhere. -/
def hasNewline (s : String) : Bool :=
  s.data.any (fun c => c == Char.ofNat 10)

/-- The string payloads a variant's rendering splices into its output are
newline-free (recursively for `StaticErr`, and the wrapped error's
message for `Io`).  Payloads that are rendered in decimal, and variants
without string payloads, impose no condition. -/
def BreadError.payloadsOneLine : BreadError → Bool
  | BreadError.StaticMsg m => !hasNewline m
  | BreadError.Msg m => !hasNewline m
  | BreadError.StaticErr e => e.payloadsOneLine
  | BreadError.Io i => !hasNewline i.value.msg
  | BreadError.FailedToConnect reason => !hasNewline reason
  | BreadError.FailedToAuthorize reason => !hasNewline reason
  | BreadError.BadObjectRead name => !hasNewline (name.getD "Unknown")
  | BreadError.ExtensionNotPresent ext => !hasNewline ext
  | BreadError.LoadLibraryFailed l => !hasNewline l
  | _ => true

/-! Helper lemmas shared by the claim theorems. -/

/-- A decimal digit character is never the newline character. -/
lemma digitChar_ne_newline (n : Nat) : (digitChar n == Char.ofNat 10) = false := by
  have h : n % 10 < 10 := Nat.mod_lt _ (by omega)
  unfold digitChar
  generalize n % 10 = m at h ⊢
  interval_cases m <;> decide

/-- The decimal digit extraction yields no newline character beyond those
already in the accumulator. -/
lemma natDigitsAux_no_newline (fuel n : Nat) (acc : List Char)
    (hacc : acc.any (fun c => c == Char.ofNat 10) = false) :
    (natDigitsAux fuel n acc).any (fun c => c == Char.ofNat 10) = false := by
  induction fuel generalizing n acc with
  | zero => exact hacc
  | succ fuel ih =>
    unfold natDigitsAux
    split
    · simp [digitChar_ne_newline, hacc]
    · exact ih _ _ (by simp [digitChar_ne_newline, hacc])

/-- The decimal rendering of a number contains no newline character. -/
lemma natToDecimal_no_newline (n : Nat) : hasNewline (natToDecimal n) = false :=
  natDigitsAux_no_newline _ _ _ rfl

/-- Appending strings gathers their newline content. -/
lemma hasNewline_append (a b : String) :
    hasNewline (a ++ b) = (hasNewline a || hasNewline b) := by
  unfold hasNewline
  rw [String.data_append, List.any_append]

/-- The error-code name table produces no newline, in either the named arms
or the decimal fallback. -/
lemma errorCode_display_no_newline (c : ErrorCode) :
    hasNewline c.display = false := by
  unfold ErrorCode.display
  split <;> first | decide | exact natToDecimal_no_newline _

/-- Characterization of the decoder on buffers long enough for every
access: it returns the protocol-failure variant with the fields drawn
from offsets 1, 2–3, 8–9 and 10. -/
lemma from_x_error_eq (native : ByteOrder) (b : List Nat) (h : 32 ≤ b.length) :
    from_x_error native b =
      some (BreadError.XProtocol (ErrorCode.mk (b.get ⟨1, by omega⟩))
        (u16FromNeBytes native (b.get ⟨8, by omega⟩) (b.get ⟨9, by omega⟩) % 256)
        (b.get ⟨10, by omega⟩)
        (u16FromNeBytes native (b.get ⟨2, by omega⟩) (b.get ⟨3, by omega⟩))) := by
  unfold from_x_error
  rw [show b[2]? = some (b.get ⟨2, by omega⟩) from List.getElem?_eq_getElem (by omega),
    show b[3]? = some (b.get ⟨3, by omega⟩) from List.getElem?_eq_getElem (by omega),
    show b[8]? = some (b.get ⟨8, by omega⟩) from List.getElem?_eq_getElem (by omega),
    show b[9]? = some (b.get ⟨9, by omega⟩) from List.getElem?_eq_getElem (by omega),
    show b[1]? = some (b.get ⟨1, by omega⟩) from List.getElem?_eq_getElem (by omega),
    show b[10]? = some (b.get ⟨10, by omega⟩) from List.getElem?_eq_getElem (by omega)]
  rfl

/-- Cloning a failure value reproduces it exactly: every variant clones its
payload by value, and the `Io` variant's `Arc.clone` keeps the same heap
identity (structure eta makes the copied pointer the same value). -/
lemma breadError_clone_eq (e : BreadError) : e.clone = e := by
  cases e <;> rfl

/-! Claim theorems. -/

/-- C1: the claim says code 13 renders as the protocol-specified name
"GContext", but the source's arm for 13 misspells it "GConext"; the code
evaluated at the failing input 13 disagrees with the protocol name. -/
theorem c1_error_code_thirteen_misspelled :
    ErrorCode.display (ErrorCode.mk 13) = "GConext" ∧
      ("GConext" : String) ≠ "GContext" :=
  ⟨by decide, by decide⟩

/-- C2: on any buffer of at least 32 bytes the decoder returns the
protocol-failure variant with `error_code` the byte at offset 1,
`major_code` the byte at offset 10, `minor_code` the 16-bit value at
offsets 8–9 (host-native byte order) narrowed to 8 bits, and `sequence`
the 16-bit value at offsets 2–3 (host-native byte order). -/
theorem c2_decoder_fields (native : ByteOrder) (b : List Nat) (h : 32 ≤ b.length) :
    from_x_error native b =
      some (BreadError.XProtocol (ErrorCode.mk (b.get ⟨1, by omega⟩))
        (u16FromNeBytes native (b.get ⟨8, by omega⟩) (b.get ⟨9, by omega⟩) % 256)
        (b.get ⟨10, by omega⟩)
        (u16FromNeBytes native (b.get ⟨2, by omega⟩) (b.get ⟨3, by omega⟩))) :=
  from_x_error_eq native b h

/-- C2 witness: a concrete 32-byte buffer decoded on a little-endian host:
`b[1] = 3`, sequence bytes `(1, 2) ↦ 513`, minor bytes `(5, 6) ↦ 1541`,
narrowed to `5`, major `b[10] = 9`. -/
theorem c2_decoder_fields_witness :
    from_x_error ByteOrder.le ([0, 3, 1, 2, 0, 0, 0, 0, 5, 6, 9] ++ List.replicate 21 0) =
      some (BreadError.XProtocol (ErrorCode.mk 3) 5 9 513) := by
  rw [c2_decoder_fields ByteOrder.le _ (by decide)]
  decide

/-- C3: the claim says the 16-bit fields are decoded in the byte order
negotiated for the session, but `from_x_error` uses `u16::from_ne_bytes`
and consults no connection state: on a little-endian host with sequence
bytes `(1, 2)` it produces 513, whereas the big-endian session
interpretation of those bytes is 258. -/
theorem c3_decoder_fixed_to_native_order :
    from_x_error ByteOrder.le ([0, 0, 1, 2] ++ List.replicate 28 0) =
      some (BreadError.XProtocol (ErrorCode.mk 0) 0 0 513) ∧
    u16FromNeBytes ByteOrder.be 1 2 = 258 ∧ (513 : Nat) ≠ 258 :=
  ⟨by decide, by decide, by decide⟩

/-- C4: on any buffer of at least 32 bytes the decoder terminates normally
with a fully populated protocol-failure value; every access is in
bounds, so the abnormal-termination branch (`none`) is unreachable. -/
theorem c4_decoder_total_in_bounds (native : ByteOrder) (b : List Nat) (h : 32 ≤ b.length) :
    ∃ ec mi ma sq, from_x_error native b = some (BreadError.XProtocol ec mi ma sq) :=
  ⟨_, _, _, _, from_x_error_eq native b h⟩

/-- C4 witness: the all-zero 32-byte buffer decodes normally. -/
theorem c4_decoder_total_in_bounds_witness :
    ∃ ec mi ma sq, from_x_error ByteOrder.be (List.replicate 32 0) =
      some (BreadError.XProtocol ec mi ma sq) :=
  c4_decoder_total_in_bounds ByteOrder.be (List.replicate 32 0) (by decide)

/-- C5: the protocol-failure rendering contains the resolved error-code
name, the decimal major opcode, the decimal minor opcode and the decimal
sequence number, in exactly that order; at the scenario values
`error_code = 8, major = 55, minor = 0, sequence = 12` it is the line
containing "Match", "55", "0", "12" in that order. -/
theorem c5_xprotocol_render_order :
    (∀ (ec : ErrorCode) (mi ma sq : Nat), ∃ s0 s1 s2 s3 s4 : String,
      (BreadError.XProtocol ec mi ma sq).display =
        s0 ++ ec.display ++ s1 ++ natToDecimal ma ++ s2 ++ natToDecimal mi ++
          s3 ++ natToDecimal sq ++ s4) ∧
    (BreadError.XProtocol (ErrorCode.mk 8) 0 55 12).display =
      "An X11 error of type Match occurred on a request of opcode 55:0 and sequence 12" := by
  constructor
  · intro ec mi ma sq
    refine ⟨"An X11 error of type ", " occurred on a request of opcode ", ":",
      " and sequence ", "", ?_⟩
    simp only [BreadError.display]
    rw [String.append_empty]
  · decide

/-- C6 counterexample: the claim quantifies over all payload values, but an
owned-message failure whose payload is a newline renders with a newline. -/
theorem c6_newline_payload_counterexample :
    hasNewline (BreadError.display (BreadError.Msg "\n")) = true := by
  decide

/-- C6 amended: every variant renders to a single line — no newline
character anywhere, trailing included — provided its string payloads
(messages, reasons, the object-name hint, the extension and library
names, the wrapped I/O error's message, and recursively the referenced
failure of `StaticErr`) contain no newline. -/
theorem c6_single_line (e : BreadError) (h : e.payloadsOneLine = true) :
    hasNewline e.display = false := by
  induction e with
  | StaticMsg m => simpa [BreadError.payloadsOneLine] using h
  | Msg m => simpa [BreadError.payloadsOneLine] using h
  | StaticErr e ih => exact ih h
  | UnableToParseConnection => decide
  | UnableToOpenConnection => decide
  | Io i => simpa [BreadError.payloadsOneLine] using h
  | FailedToConnect reason =>
      have hr : hasNewline reason = false := by
        simpa [BreadError.payloadsOneLine] using h
      show hasNewline ("Unable to connect to the X11 server: " ++ reason) = false
      rw [hasNewline_append, hr]
      decide
  | FailedToAuthorize reason =>
      have hr : hasNewline reason = false := by
        simpa [BreadError.payloadsOneLine] using h
      show hasNewline ("Authorization was rejected by the X11 server: " ++ reason) = false
      rw [hasNewline_append, hr]
      decide
  | BadObjectRead name =>
      have hr : hasNewline (name.getD "Unknown") = false := by
        simpa [BreadError.payloadsOneLine] using h
      show hasNewline ("Unable to read object of type from bytes: " ++ name.getD "Unknown") = false
      rw [hasNewline_append, hr]
      decide
  | ExtensionNotPresent ext =>
      have hr : hasNewline ext = false := by
        simpa [BreadError.payloadsOneLine] using h
      show hasNewline ("Extension was not found on X server: " ++ ext) = false
      rw [hasNewline_append, hr]
      decide
  | NoMatchingRequest seq =>
      show hasNewline ("Received reply with non-matching sequence " ++ natToDecimal seq) = false
      rw [hasNewline_append, natToDecimal_no_newline]
      decide
  | XProtocol ec mi ma sq =>
      show hasNewline ("An X11 error of type " ++ ec.display ++
        " occurred on a request of opcode " ++ natToDecimal ma ++ ":" ++
        natToDecimal mi ++ " and sequence " ++ natToDecimal sq) = false
      simp only [hasNewline_append, natToDecimal_no_newline, errorCode_display_no_newline]
      decide
  | ClosedConnection => decide
  | LoadLibraryFailed l =>
      have hr : hasNewline l = false := by
        simpa [BreadError.payloadsOneLine] using h
      show hasNewline ("Failed to load library: " ++ l) = false
      rw [hasNewline_append, hr]
      decide

/-- C6 witness: a concrete newline-free message renders without a newline. -/
theorem c6_single_line_witness :
    hasNewline (BreadError.display (BreadError.Msg "hello")) = false :=
  c6_single_line (BreadError.Msg "hello") (by decide)

/-- C7: rendering `StaticErr e` produces exactly the rendering of `e`
itself (a single level of indirection). -/
theorem c7_static_err_delegates (e : BreadError) :
    (BreadError.StaticErr e).display = e.display := rfl

/-- C8: the uninhabited-type conversion never executes: `Infallible` has no
values, so vacuously `fromInfallible` never returns a reportable value. -/
theorem c8_infallible_conversion_unreachable :
    (¬ Nonempty Infallible) ∧
      ∀ (i : Infallible) (e : BreadError), fromInfallible i = e :=
  ⟨fun h => h.elim (fun i => nomatch i), fun i => nomatch i⟩

/-- C9: cloning any failure value preserves its rendering byte for byte;
cloning preserves the heap identity of the wrapped I/O error, and the
clone of an `Io` value holds the very `Arc` produced once by the
`From<IoError>` conversion, not a copy of the underlying error. -/
theorem c9_clone_renders_same_shares_io :
    (∀ e : BreadError, e.clone.display = e.display) ∧
    (∀ e : BreadError, arcIdOf e.clone = arcIdOf e) ∧
    (∀ a : Arc IoError, (BreadError.Io a).clone = BreadError.Io a) ∧
    (∀ (fresh : Nat) (io : IoError),
      arcIdOf (BreadError.clone (fromIoError fresh io)) = some fresh) :=
  ⟨(fun e => by rw [breadError_clone_eq]),
   (fun e => by rw [breadError_clone_eq]),
   (fun a => breadError_clone_eq _),
   (fun fresh io => rfl)⟩

/-- C10: the decoder's output depends only on the bytes at offsets 1, 2,
3, 8, 9 and 10: two buffers of at least 32 bytes agreeing there decode
to equal values, whatever the other bytes hold. -/
theorem c10_depends_only_on_six_offsets (native : ByteOrder) (b1 b2 : List Nat)
    (h1 : 32 ≤ b1.length) (h2 : 32 ≤ b2.length)
    (e1 : b1[1]? = b2[1]?) (e2 : b1[2]? = b2[2]?) (e3 : b1[3]? = b2[3]?)
    (e8 : b1[8]? = b2[8]?) (e9 : b1[9]? = b2[9]?) (e10 : b1[10]? = b2[10]?) :
    from_x_error native b1 = from_x_error native b2 := by
  have g : ∀ (i : Nat) (hi : i < 32), b1[i]? = b2[i]? →
      b1.get ⟨i, by omega⟩ = b2.get ⟨i, by omega⟩ := by
    intro i hi he
    rw [List.get_eq_getElem, List.get_eq_getElem]
    rw [List.getElem?_eq_getElem (show i < b1.length by omega),
      List.getElem?_eq_getElem (show i < b2.length by omega)] at he
    exact Option.some.inj he
  rw [from_x_error_eq native b1 h1, from_x_error_eq native b2 h2,
    g 1 (by omega) e1, g 2 (by omega) e2, g 3 (by omega) e3,
    g 8 (by omega) e8, g 9 (by omega) e9, g 10 (by omega) e10]

/-- C10 witness: two concrete buffers agreeing only at offsets 1, 2, 3, 8,
9, 10 decode identically. -/
theorem c10_depends_only_on_six_offsets_witness :
    from_x_error ByteOrder.le (List.replicate 32 0) =
      from_x_error ByteOrder.le ([7, 0, 0, 0, 4, 4, 4, 4, 0, 0, 0] ++ List.replicate 21 8) :=
  c10_depends_only_on_six_offsets ByteOrder.le _ _ (by decide) (by decide)
    (by decide) (by decide) (by decide) (by decide) (by decide) (by decide)

end Breadx
